import Mathlib

/-!
Verification of the Papaya widget-react core against its design notes.

The permit codec (compressPermit / decompressPermit), the bySig traits
packing (buildBySigTraits), the subscription rate calculator
(calculateSubscriptionRate), the affordability resolver
(useSubscriptionInfo) and the network/token lookup (useTokenDetails) are
embedded shallowly.

JavaScript hex strings: every payload handled by the codec is a string
"0x" followed by hex digits.  We model such a string as the list of its
hex digit values (most significant first), without the "0x" prefix.
JavaScript's s.length on the prefixed string is the digit count plus 2
(jsLength below); JavaScript slice indices at or past 2 translate to
digit indices by subtracting 2.  BigInt("0x" + digits) is fromHex,
n.toString(16).padStart(w, "0") is padHex w n, and big-integer
arithmetic is Nat arithmetic.
-/

set_option maxRecDepth 100000

namespace PapayaWidget

/-- Length of the JS string "0x" ++ digits, as used by the switch in
compressPermit and decompressPermit. -/
def jsLength (s : List Nat) : Nat := s.length + 2

/-- Models n.toString(16).padStart(w, "0"): the hex digits of n, most
significant first, left-padded with zeros to width w (longer than w if n
needs more than w digits; JS padStart never truncates).  For n = 0 and
w at least 1 this is w zeros, matching "0".padStart(w, "0"). -/
def padHex (w n : Nat) : List Nat :=
  List.replicate (w - (Nat.digits 16 n).length) 0 ++ (Nat.digits 16 n).reverse

/-- Models BigInt("0x" ++ digits): the value of a big-endian digit list. -/
def fromHex (s : List Nat) : Nat := Nat.ofDigits 16 s.reverse

/-- Digit-index slice: sl s a b lists digits a..b-1.  It models the JS
slice(a + 2, b + 2) on the "0x"-prefixed string. -/
def sl (s : List Nat) (a b : Nat) : List Nat := (s.drop a).take (b - a)

/-- ethers.constants.MaxUint256. -/
def maxUint256 : Nat := 2 ^ 256 - 1

/-- The Permit2 sentinel BigInt("0xffffffffffff") (the uint48 maximum). -/
def permit2Max : Nat := 0xffffffffffff

/-- The 255-bit mask 0x7fff...ff used by decompressPermit to recover s. -/
def mask255 : Nat :=
  0x7fffffffffffffffffffffffffffffffffffffffffffffffffffffffffffffff

/-- Abstract fields of an IERC20Permit.permit(owner, spender, value,
deadline, v, r, s) call (selector already stripped). -/
structure Eip2612Permit where
  owner : Nat
  spender : Nat
  value : Nat
  deadline : Nat
  v : Nat
  r : Nat
  s : Nat

/-- Abstract fields of an IDaiLikePermit.permit(holder, spender, nonce,
expiry, allowed, v, r, s) call. -/
structure DaiPermit where
  holder : Nat
  spender : Nat
  nonce : Nat
  expiry : Nat
  allowed : Bool
  v : Nat
  r : Nat
  s : Nat

/-- Abstract fields of an IPermit2.permit(owner, permitSingle, signature)
call; the 65-field layout used by the codec is owner, token, amount,
expiration, nonce, spender, sigDeadline, signature, with a 64-byte
signature (value below 16 ^ 128). -/
structure Permit2Permit where
  owner : Nat
  token : Nat
  amount : Nat
  expiration : Nat
  nonce : Nat
  spender : Nat
  sigDeadline : Nat
  signature : Nat

/-- ABI encoding of the uncompressed EIP-2612 permit call: seven static
32-byte words, 448 hex digits, jsLength 450. -/
def encodeEip2612 (p : Eip2612Permit) : List Nat :=
  padHex 64 p.owner ++ (padHex 64 p.spender ++ (padHex 64 p.value ++
    (padHex 64 p.deadline ++ (padHex 64 p.v ++ (padHex 64 p.r ++
      padHex 64 p.s)))))

/-- ABI encoding of the uncompressed DAI-style permit call: eight static
words (allowed encoded as 1 or 0), 512 hex digits, jsLength 514. -/
def encodeDai (p : DaiPermit) : List Nat :=
  padHex 64 p.holder ++ (padHex 64 p.spender ++ (padHex 64 p.nonce ++
    (padHex 64 p.expiry ++ (padHex 64 (if p.allowed then 1 else 0) ++
      (padHex 64 p.v ++ (padHex 64 p.r ++ padHex 64 p.s))))))

/-- ABI encoding of the uncompressed Permit2 call: seven static words,
then the dynamic bytes signature in canonical layout (offset word 0x100,
length word 0x40, 64 bytes of data); 704 hex digits, jsLength 706. -/
def encodePermit2 (p : Permit2Permit) : List Nat :=
  padHex 64 p.owner ++ (padHex 64 p.token ++ (padHex 64 p.amount ++
    (padHex 64 p.expiration ++ (padHex 64 p.nonce ++ (padHex 64 p.spender ++
      (padHex 64 p.sigDeadline ++ (padHex 64 256 ++ (padHex 64 64 ++
        padHex 128 p.signature))))))))

/-- compressPermit from src/src/contexts/SubscriptionProvider.tsx.
Dispatches on the JS string length; each uncompressed case decodes the
ABI words (word i is digits 64i..64i+63; for a well-formed Permit2 call
the signature bytes sit at digits 576..703) and re-packs the surviving
fields.  v - 27 is Nat subtraction, faithful on the uint8 signature
domain v in \x7b27, 28\x7d the codec is used with. -/
def compressPermit (permit : List Nat) : Except String (List Nat) :=
  if jsLength permit = 450 then
    let value := fromHex (sl permit 128 192)
    let deadline := fromHex (sl permit 192 256)
    let v := fromHex (sl permit 256 320)
    let r := sl permit 320 384
    let s := fromHex (sl permit 384 448)
    .ok (padHex 64 value ++
      ((if deadline = maxUint256 then List.replicate 8 0
        else padHex 8 (deadline + 1)) ++
       (padHex 64 (fromHex r) ++
        padHex 64 (((v - 27) <<< 255) ||| s))))
  else if jsLength permit = 514 then
    let nonce := fromHex (sl permit 128 192)
    let expiry := fromHex (sl permit 192 256)
    let v := fromHex (sl permit 320 384)
    let r := sl permit 384 448
    let s := fromHex (sl permit 448 512)
    .ok (padHex 8 nonce ++
      ((if expiry = maxUint256 then List.replicate 8 0
        else padHex 8 (expiry + 1)) ++
       (padHex 64 (fromHex r) ++
        padHex 64 (((v - 27) <<< 255) ||| s))))
  else if jsLength permit = 706 then
    let amount := fromHex (sl permit 128 192)
    let expiration := fromHex (sl permit 192 256)
    let nonce := fromHex (sl permit 256 320)
    let sigDeadline := fromHex (sl permit 384 448)
    let signature := sl permit 576 704
    .ok (padHex 40 amount ++
      ((if expiration = permit2Max then List.replicate 8 0
        else padHex 8 (expiration + 1)) ++
       (padHex 8 nonce ++
        ((if sigDeadline = permit2Max then List.replicate 8 0
          else padHex 8 (sigDeadline + 1)) ++
         padHex 128 (fromHex signature)))))
  else if jsLength permit = 202 ∨ jsLength permit = 146 ∨
      jsLength permit = 194 then
    .error "Permit is already compressed"
  else
    .error "Invalid permit length"

/-- decompressPermit from src/src/contexts/SubscriptionProvider.tsx.
The compact fields are read at the source's slice positions (shifted by
2 for the "0x" prefix); the full call is rebuilt by ABI-encoding with
the re-supplied owner / spender (and token for Permit2). -/
def decompressPermit (permit : List Nat) (token owner spender : Nat) :
    Except String (List Nat) :=
  if jsLength permit = 202 then
    let value := fromHex (sl permit 0 64)
    let deadline := fromHex (sl permit 64 72)
    let r := sl permit 72 136
    let vs := fromHex (sl permit 136 200)
    .ok (padHex 64 owner ++ (padHex 64 spender ++ (padHex 64 value ++
      (padHex 64 (if deadline = 0 then maxUint256 else deadline - 1) ++
       (padHex 64 ((vs >>> 255) + 27) ++ (r ++
        padHex 64 (vs &&& mask255)))))))
  else if jsLength permit = 146 then
    let nonce := fromHex (sl permit 0 8)
    let expiry := fromHex (sl permit 8 16)
    let r := sl permit 16 80
    let vs := fromHex (sl permit 80 144)
    .ok (padHex 64 owner ++ (padHex 64 spender ++ (padHex 64 nonce ++
      (padHex 64 (if expiry = 0 then maxUint256 else expiry - 1) ++
       (padHex 64 1 ++ (padHex 64 ((vs >>> 255) + 27) ++ (r ++
        padHex 64 (vs &&& mask255))))))))
  else if jsLength permit = 194 then
    let amount := fromHex (sl permit 0 40)
    let expiration := fromHex (sl permit 40 48)
    let nonce := fromHex (sl permit 48 56)
    let sigDeadline := fromHex (sl permit 56 64)
    let r := sl permit 64 128
    let vs := sl permit 128 192
    .ok (padHex 64 owner ++ (padHex 64 token ++ (padHex 64 amount ++
      (padHex 64 (if expiration = 0 then permit2Max else expiration - 1) ++
       (padHex 64 nonce ++ (padHex 64 spender ++
        (padHex 64 (if sigDeadline = 0 then permit2Max else sigDeadline - 1) ++
         (padHex 64 256 ++ (padHex 64 64 ++ (r ++ vs))))))))))
  else if jsLength permit = 450 ∨ jsLength permit = 514 ∨
      jsLength permit = 706 then
    .error "Permit is already decompressed"
  else
    .error "Invalid permit length"

/-- A permit payload of one of the three variants handled by the codec. -/
inductive PermitPayload where
  | eip2612 (p : Eip2612Permit)
  | dai (p : DaiPermit)
  | permit2 (p : Permit2Permit)

/-- The uncompressed ABI encoding of a payload. -/
def encodePayload : PermitPayload → List Nat
  | .eip2612 p => encodeEip2612 p
  | .dai p => encodeDai p
  | .permit2 p => encodePermit2 p

/-- Validity of an uncompressed payload: each field fits its ABI type and
the widths of the compressed form (v is a 27/28 signature byte, s fits
the 255 low bits of vs, timestamps are the variant's sentinel or small
enough that value + 1 fits 4 bytes, DAI nonce and Permit2 nonce fit
4 bytes, a DAI permit grants (allowed = true), a Permit2 signature is
64 bytes). -/
def validPayload : PermitPayload → Prop
  | .eip2612 p =>
    p.owner < 2 ^ 160 ∧ p.spender < 2 ^ 160 ∧ p.value < 2 ^ 256 ∧
    (p.v = 27 ∨ p.v = 28) ∧ p.r < 2 ^ 256 ∧ p.s < 2 ^ 255 ∧
    (p.deadline = maxUint256 ∨ p.deadline + 1 < 2 ^ 32)
  | .dai p =>
    p.holder < 2 ^ 160 ∧ p.spender < 2 ^ 160 ∧ p.nonce < 2 ^ 32 ∧
    (p.v = 27 ∨ p.v = 28) ∧ p.r < 2 ^ 256 ∧ p.s < 2 ^ 255 ∧
    (p.expiry = maxUint256 ∨ p.expiry + 1 < 2 ^ 32) ∧ p.allowed = true
  | .permit2 p =>
    p.owner < 2 ^ 160 ∧ p.token < 2 ^ 160 ∧ p.spender < 2 ^ 160 ∧
    p.amount < 2 ^ 160 ∧ p.nonce < 2 ^ 32 ∧
    (p.expiration = permit2Max ∨ p.expiration + 1 < 2 ^ 32) ∧
    (p.sigDeadline = permit2Max ∨ p.sigDeadline + 1 < 2 ^ 32) ∧
    p.signature < 16 ^ 128

/-- The payload with the fields elided by compression replaced by the
arguments re-supplied to decompressPermit (owner and spender always;
token additionally for Permit2; a decompressed DAI permit always has
allowed = true). -/
def resupply : PermitPayload → Nat → Nat → Nat → PermitPayload
  | .eip2612 p, _, owner, spender =>
    .eip2612 { p with owner := owner, spender := spender }
  | .dai p, _, owner, spender =>
    .dai { p with holder := owner, spender := spender, allowed := true }
  | .permit2 p, token, owner, spender =>
    .permit2 { p with token := token, owner := owner, spender := spender }

/-- NonceType from src/src/contexts/SubscriptionProvider.tsx. -/
inductive NonceType where
  | Account
  | Selector
  | Unique
  | Invalid

/-- Numeric value of the TypeScript enum member. -/
def NonceType.toNat : NonceType → Nat
  | .Account => 0
  | .Selector => 1
  | .Unique => 2
  | .Invalid => 3

/-- buildBySigTraits from src/src/contexts/SubscriptionProvider.tsx.
The relayer argument is an address string of at most 42 characters
("0x" plus at most 40 hex digits); its value is below 2 ^ 160, which is
how the length guard is rendered here.  The error strings are the
source's messages. -/
def buildBySigTraits (nonceType deadline relayer nonce : Nat) :
    Except String Nat :=
  if nonceType > 3 then
    .error "Wrong nonce type, it should be less than 4"
  else if deadline > 0xffffffffff then
    .error "Wrong deadline, it should be less than 0xffffffff"
  else if relayer ≥ 2 ^ 160 then
    .error "Wrong relayer address, it should be less than 42 symbols"
  else if nonce > 0xffffffffffffffffffffffffffffffff then
    .error "Wrong nonce, it should not be more than 128 bits"
  else
    .ok ((nonceType <<< 254) + ((deadline <<< 208) +
      (((relayer &&& 0xffffffffffffffffffff) <<< 128) + nonce)))

/-- The traits value built by Subscribe.submit (src/unnamed/part_002,
lines 192-196): nonce type Selector, deadline 0xffffffffff, nonce 0,
relayer defaulted to the zero address. -/
def subscribeTraits : Except String Nat :=
  buildBySigTraits NonceType.Selector.toNat 0xffffffffff 0 0

/-- Spec reading of the traits packing with an 88-bit relayer fragment
(data-model section: "a 2-bit nonce type, a 40-bit deadline, an 88-bit
relayer-address fragment, and a 128-bit nonce"), for comparison with
the code. -/
def specTraits88 (nonceType deadline relayer nonce : Nat) : Nat :=
  nonceType * 2 ^ 254 + deadline * 2 ^ 208 + relayer % 2 ^ 88 * 2 ^ 128 +
    nonce

/-- SubscriptionPayCycle from src/src/constants/enums. -/
inductive SubscriptionPayCycle where
  | daily
  | weekly
  | monthly
  | yearly

/-- The timeDurations record in calculateSubscriptionRate
(src/src/utils/index.ts), written with the source's arithmetic. -/
def timeDurations : SubscriptionPayCycle → Nat
  | .daily => 24 * 60 * 60
  | .weekly => 7 * 24 * 60 * 60
  | .monthly => 30 * 24 * 60 * 60
  | .yearly => 365 * 24 * 60 * 60

/-- calculateSubscriptionRate from src/src/utils/index.ts: BigInt
division of the cost by the cycle length in seconds. -/
def calculateSubscriptionRate (subscriptionCost : Nat)
    (payCycle : SubscriptionPayCycle) : Nat :=
  subscriptionCost / timeDurations payCycle

/-- Inputs of useSubscriptionInfo (src/src/hook/useSubscriptionModal.tsx):
the three polled chain reads (null until loaded, hence Option), and the
caller's cost string parsed at 6 and 18 decimals (parseUnits of
subscriptionDetails.cost; for a cost string with at most six fractional
digits, cost18 = cost6 * 10 ^ 12). -/
structure SubscriptionInput where
  papayaBalance : Option Nat
  allowance : Option Nat
  tokenBalance : Option Nat
  cost6 : Nat
  cost18 : Nat

/-- needsDeposit: papayaBalance == null or below parseUnits(cost, 18).
Identical in both versions of the hook (lines 229-231 and 593-595). -/
def needsDeposit (i : SubscriptionInput) : Bool :=
  match i.papayaBalance with
  | none => true
  | some pb => decide (pb < i.cost18)

/-- depositAmount: parseUnits(cost, 6) - papayaBalance / parseUnits("1", 12)
when the balance is loaded and positive, else parseUnits(cost, 6).
BigInt subtraction can go negative, hence Int. -/
def depositAmount (i : SubscriptionInput) : Int :=
  match i.papayaBalance with
  | some pb =>
    if 0 < pb then (i.cost6 : Int) - ((pb / 10 ^ 12 : Nat) : Int)
    else (i.cost6 : Int)
  | none => (i.cost6 : Int)

/-- needsApproval: allowance == null or below depositAmount. -/
def needsApproval (i : SubscriptionInput) : Bool :=
  match i.allowance with
  | none => true
  | some a => decide ((a : Int) < depositAmount i)

/-- canSubscribe of the first hook version (lines 241-247): either no
deposit is needed and the Papaya balance covers parseUnits(cost, 18), or
a deposit is needed and the wallet token balance covers the full
parseUnits(cost, 6). -/
def canSubscribeV1 (i : SubscriptionInput) : Bool :=
  (!needsDeposit i &&
    match i.papayaBalance with
    | some pb => decide (i.cost18 ≤ pb)
    | none => false) ||
  (needsDeposit i &&
    match i.tokenBalance with
    | some tb => decide (i.cost6 ≤ tb)
    | none => false)

/-- canSubscribe of the second hook version (lines 608-611): the deposit
branch is absent. -/
def canSubscribeV2 (i : SubscriptionInput) : Bool :=
  !needsDeposit i &&
    match i.papayaBalance with
    | some pb => decide (i.cost18 ≤ pb)
    | none => false

/-- Spec reading of the required deposit (design section 4.3):
subscriptionCost18 plus the per-second rate times the fixed 172800
second safety buffer. -/
def specRequiredDeposit18 (cost18 : Nat) (cycle : SubscriptionPayCycle) :
    Nat :=
  cost18 + calculateSubscriptionRate cost18 cycle * 172800

/-- Spec reading of the deposit shortfall (design section 4.3):
max(0, requiredDepositTokenUnits - currentDepositTokenUnits), both
operands scaled down to token units by floor division. -/
def specShortfallTok (cost18 pb : Nat) (cycle : SubscriptionPayCycle) :
    Int :=
  max 0 (((specRequiredDeposit18 cost18 cycle / 10 ^ 12 : Nat) : Int) -
    ((pb / 10 ^ 12 : Nat) : Int))

/-- TokenDescriptor from src/src/constants/networks. -/
structure TokenDescriptor where
  name : String
  ercAddress : Nat
  papayaAddress : Nat
  tokenDecimals : Nat
  startBlockNumber : Nat

/-- NetworkDescriptor from src/src/constants/networks. -/
structure NetworkDescriptor where
  name : String
  provider : String
  isMainnet : Bool
  tokens : List TokenDescriptor
  nativeToken : String
  chainId : Nat
  defaultConfirmations : Nat

/-- The networks constant from src/src/constants/networks. -/
def networks : List NetworkDescriptor :=
  [{ name := "Polygon",
     provider := "https://polygon-mainnet.nodereal.io/v1/7f14d2882c7e4f9397c846ddbd6f79e3",
     isMainnet := true,
     tokens :=
       [{ name := "USDC",
          ercAddress := 0x3c499c542cEF5E3811e1192ce70d8cC03d5c3359,
          papayaAddress := 0xb8fD71A4d29e2138056b2a309f97b96ec2A8EeD7,
          tokenDecimals := 1000000,
          startBlockNumber := 0x377D398 },
        { name := "USDT",
          ercAddress := 0xc2132d05d31c914a87c6611c10748aeb04b58e8f,
          papayaAddress := 0xD3B79811fFb55708A4fe848D0b131030a347887C,
          tokenDecimals := 1000000,
          startBlockNumber := 0x377D3BE }],
     nativeToken := "POL",
     chainId := 137,
     defaultConfirmations := 6 },
   { name := "Binance Smart Chain",
     provider := "https://bsc-mainnet.nodereal.io/v1/a1bccec11936475a9c70b39efa227fea",
     isMainnet := true,
     tokens :=
       [{ name := "USDC",
          ercAddress := 0x8ac76a51cc950d9822d68b83fe1ad97b32cd580d,
          papayaAddress := 0xD3B79811fFb55708A4fe848D0b131030a347887C,
          tokenDecimals := 1000000000000000000,
          startBlockNumber := 0x25CB519 },
        { name := "USDT",
          ercAddress := 0x55d398326f99059fF775485246999027B3197955,
          papayaAddress := 0xB9BE933e8a17dc0d9bf69aFE9E91C54330CF6dF4,
          tokenDecimals := 1000000000000000000,
          startBlockNumber := 0x25CB551 }],
     nativeToken := "BNB",
     chainId := 56,
     defaultConfirmations := 2 }]

/-- Models JavaScript's toLowerCase on the ASCII names used here. -/
def lowerStr (s : String) : String := String.mk (s.data.map Char.toLower)

/-- Result record of useTokenDetails. -/
structure TokenDetailsResult where
  currentNetwork : NetworkDescriptor
  tokenDetails : TokenDescriptor
  isUnsupportedNetwork : Bool
  isUnsupportedToken : Bool

/-- useTokenDetails from src/src/hook/useSubscriptionModal.tsx (first
version, lines 19-55; the second version is identical up to the default
chain id and token).  The two throws guard the default lookups.  After
the ?? fallbacks, currentNetwork and tokenDetails are non-null objects,
so the JS negations !currentNetwork and !tokenDetails are false. -/
def useTokenDetails (chainId : Nat) (token : String) :
    Except String TokenDetailsResult :=
  match (networks.find? (fun n => n.chainId == 137)) with
  | none => .error "Default network (Polygon) is missing in the configuration."
  | some defaultNetwork =>
    match defaultNetwork.tokens.find? (fun t => lowerStr t.name == "usdt") with
    | none => .error "Default token (USDT) is missing in the configuration."
    | some defaultToken =>
      let currentNetwork :=
        (networks.find? (fun n => n.chainId == chainId)).getD defaultNetwork
      let tokenDetails :=
        (currentNetwork.tokens.find?
          (fun t => lowerStr t.name == lowerStr token)).getD defaultToken
      .ok { currentNetwork := currentNetwork,
            tokenDetails := tokenDetails,
            isUnsupportedNetwork := false,
            isUnsupportedToken := false }

/-! Hex-string lemmas. -/

theorem ofDigits_replicate_zero (b k : Nat) :
    Nat.ofDigits b (List.replicate k 0) = 0 := by
  induction k with
  | zero => simp [Nat.ofDigits]
  | succ k ih => simp [List.replicate_succ, Nat.ofDigits_cons, ih]

theorem padHex_length {w n : Nat} (h : n < 16 ^ w) :
    (padHex w n).length = w := by
  unfold padHex
  rcases Nat.eq_zero_or_pos n with h0 | h0
  · subst h0; simp
  · have hlen : (Nat.digits 16 n).length ≤ w := by
      rw [Nat.digits_len 16 n (by norm_num) h0.ne']
      have := Nat.log_lt_of_lt_pow h0.ne' h
      omega
    simp only [List.length_append, List.length_replicate, List.length_reverse]
    omega

theorem fromHex_padHex (w n : Nat) : fromHex (padHex w n) = n := by
  unfold fromHex padHex
  rw [List.reverse_append, List.reverse_reverse, List.reverse_replicate,
    Nat.ofDigits_append, Nat.ofDigits_digits, ofDigits_replicate_zero]
  ring

theorem fromHex_replicate_zero (k : Nat) :
    fromHex (List.replicate k 0) = 0 := by
  unfold fromHex
  rw [List.reverse_replicate]
  exact ofDigits_replicate_zero 16 k

theorem sl_here {A X : List Nat} {w : Nat} (h : A.length = w) :
    sl (A ++ X) 0 w = A := by
  unfold sl
  simpa using List.take_left' h

theorem sl_all {A : List Nat} {w b : Nat} (h : A.length = w) (hb : w ≤ b) :
    sl A 0 b = A := by
  unfold sl
  simpa using List.take_of_length_le (by omega)

theorem sl_skip {A X : List Nat} {w a b : Nat} (a' b' : Nat)
    (h : A.length = w) (ha : a = w + a') (hb : b = w + b') :
    sl (A ++ X) a b = sl X a' b' := by
  subst ha hb h
  unfold sl
  rw [← List.drop_drop, List.drop_left, Nat.add_sub_add_left]

/-! Arithmetic of the packed vs field. -/

theorem pow16_64 : (16 : Nat) ^ 64 = 2 ^ 256 := by norm_num

theorem pow16_8 : (16 : Nat) ^ 8 = 2 ^ 32 := by norm_num

theorem pow16_40 : (16 : Nat) ^ 40 = 2 ^ 160 := by norm_num

theorem vs_eq {v s : Nat} (hs : s < 2 ^ 255) :
    ((v - 27) <<< 255) ||| s = (v - 27) * 2 ^ 255 + s := by
  rw [Nat.shiftLeft_eq, Nat.mul_comm, ← Nat.mul_add_lt_is_or hs]

theorem vs_lt {v s : Nat} (hv : v = 27 ∨ v = 28) (hs : s < 2 ^ 255) :
    ((v - 27) <<< 255) ||| s < 2 ^ 256 := by
  rw [vs_eq hs]
  rcases hv with h | h <;> subst h <;> norm_num <;> omega

theorem vs_recover_v {v s : Nat} (hv : v = 27 ∨ v = 28) (hs : s < 2 ^ 255) :
    (((v - 27) * 2 ^ 255 + s) >>> 255) + 27 = v := by
  rw [Nat.shiftRight_eq_div_pow]
  rcases hv with h | h <;> subst h
  · rw [show (27 - 27) * 2 ^ 255 + s = s by ring, Nat.div_eq_of_lt hs]
  · rw [show (28 - 27) * 2 ^ 255 + s = s + 2 ^ 255 by ring,
      Nat.add_div_right _ (by positivity), Nat.div_eq_of_lt hs]

theorem mask255_eq : mask255 = 2 ^ 255 - 1 := by norm_num [mask255]

theorem vs_recover_s {v s : Nat} (hs : s < 2 ^ 255) :
    ((v - 27) * 2 ^ 255 + s) &&& mask255 = s := by
  rw [mask255_eq, Nat.and_pow_two_sub_one_eq_mod, Nat.mul_comm,
    Nat.mul_add_mod]
  exact Nat.mod_eq_of_lt hs

/-! EIP-2612 codec lemmas. -/

theorem compress_eip2612 (p : Eip2612Permit)
    (h1 : p.owner < 2 ^ 160) (h2 : p.spender < 2 ^ 160)
    (h3 : p.value < 2 ^ 256) (hv : p.v = 27 ∨ p.v = 28)
    (hr : p.r < 2 ^ 256) (hs : p.s < 2 ^ 255)
    (hd : p.deadline = maxUint256 ∨ p.deadline + 1 < 2 ^ 32) :
    compressPermit (encodeEip2612 p) =
      .ok (padHex 64 p.value ++
        ((if p.deadline = maxUint256 then List.replicate 8 0
          else padHex 8 (p.deadline + 1)) ++
         (padHex 64 p.r ++
          padHex 64 (((p.v - 27) <<< 255) ||| p.s)))) := by
  have hdlt : p.deadline < 2 ^ 256 := by
    rcases hd with h | h
    · rw [h]; norm_num [maxUint256]
    · have : (2 : Nat) ^ 32 ≤ 2 ^ 256 := by norm_num
      omega
  have hW0 : (padHex 64 p.owner).length = 64 :=
    padHex_length (by rw [pow16_64]; exact h1.trans (by norm_num))
  have hW1 : (padHex 64 p.spender).length = 64 :=
    padHex_length (by rw [pow16_64]; exact h2.trans (by norm_num))
  have hW2 : (padHex 64 p.value).length = 64 :=
    padHex_length (by rw [pow16_64]; exact h3)
  have hW3 : (padHex 64 p.deadline).length = 64 :=
    padHex_length (by rw [pow16_64]; exact hdlt)
  have hW4 : (padHex 64 p.v).length = 64 :=
    padHex_length (by rw [pow16_64]; rcases hv with h | h <;> rw [h] <;>
      norm_num)
  have hW5 : (padHex 64 p.r).length = 64 :=
    padHex_length (by rw [pow16_64]; exact hr)
  have hW6 : (padHex 64 p.s).length = 64 :=
    padHex_length (by rw [pow16_64]; exact hs.trans (by norm_num))
  have hlen : jsLength (encodeEip2612 p) = 450 := by
    unfold jsLength encodeEip2612
    simp [hW0, hW1, hW2, hW3, hW4, hW5, hW6]
  have s2 : sl (encodeEip2612 p) 128 192 = padHex 64 p.value := by
    unfold encodeEip2612
    rw [sl_skip 64 128 hW0 (by norm_num) (by norm_num),
      sl_skip 0 64 hW1 (by norm_num) (by norm_num), sl_here hW2]
  have s3 : sl (encodeEip2612 p) 192 256 = padHex 64 p.deadline := by
    unfold encodeEip2612
    rw [sl_skip 128 192 hW0 (by norm_num) (by norm_num),
      sl_skip 64 128 hW1 (by norm_num) (by norm_num),
      sl_skip 0 64 hW2 (by norm_num) (by norm_num), sl_here hW3]
  have s4 : sl (encodeEip2612 p) 256 320 = padHex 64 p.v := by
    unfold encodeEip2612
    rw [sl_skip 192 256 hW0 (by norm_num) (by norm_num),
      sl_skip 128 192 hW1 (by norm_num) (by norm_num),
      sl_skip 64 128 hW2 (by norm_num) (by norm_num),
      sl_skip 0 64 hW3 (by norm_num) (by norm_num), sl_here hW4]
  have s5 : sl (encodeEip2612 p) 320 384 = padHex 64 p.r := by
    unfold encodeEip2612
    rw [sl_skip 256 320 hW0 (by norm_num) (by norm_num),
      sl_skip 192 256 hW1 (by norm_num) (by norm_num),
      sl_skip 128 192 hW2 (by norm_num) (by norm_num),
      sl_skip 64 128 hW3 (by norm_num) (by norm_num),
      sl_skip 0 64 hW4 (by norm_num) (by norm_num), sl_here hW5]
  have s6 : sl (encodeEip2612 p) 384 448 = padHex 64 p.s := by
    unfold encodeEip2612
    rw [sl_skip 320 384 hW0 (by norm_num) (by norm_num),
      sl_skip 256 320 hW1 (by norm_num) (by norm_num),
      sl_skip 192 256 hW2 (by norm_num) (by norm_num),
      sl_skip 128 192 hW3 (by norm_num) (by norm_num),
      sl_skip 64 128 hW4 (by norm_num) (by norm_num),
      sl_skip 0 64 hW5 (by norm_num) (by norm_num), sl_all hW6 (by norm_num)]
  simp only [compressPermit, hlen, s2, s3, s4, s5, s6, fromHex_padHex]
  simp

theorem decompress_202 (value dl r vs token owner spender : Nat)
    (hval : value < 16 ^ 64) (hdl : dl < 16 ^ 8) (hr : r < 16 ^ 64)
    (hvs : vs < 16 ^ 64) :
    decompressPermit
      (padHex 64 value ++ (padHex 8 dl ++ (padHex 64 r ++ padHex 64 vs)))
      token owner spender =
    .ok (padHex 64 owner ++ (padHex 64 spender ++ (padHex 64 value ++
      (padHex 64 (if dl = 0 then maxUint256 else dl - 1) ++
       (padHex 64 ((vs >>> 255) + 27) ++ (padHex 64 r ++
        padHex 64 (vs &&& mask255))))))) := by
  have hV := padHex_length hval
  have hD := padHex_length hdl
  have hR := padHex_length hr
  have hVS := padHex_length hvs
  have hlen : jsLength
      (padHex 64 value ++ (padHex 8 dl ++ (padHex 64 r ++ padHex 64 vs))) =
      202 := by
    unfold jsLength
    simp [hV, hD, hR, hVS]
  have s0 : sl (padHex 64 value ++ (padHex 8 dl ++ (padHex 64 r ++
      padHex 64 vs))) 0 64 = padHex 64 value := sl_here hV
  have s1 : sl (padHex 64 value ++ (padHex 8 dl ++ (padHex 64 r ++
      padHex 64 vs))) 64 72 = padHex 8 dl := by
    rw [sl_skip 0 8 hV (by norm_num) (by norm_num), sl_here hD]
  have s2 : sl (padHex 64 value ++ (padHex 8 dl ++ (padHex 64 r ++
      padHex 64 vs))) 72 136 = padHex 64 r := by
    rw [sl_skip 8 72 hV (by norm_num) (by norm_num),
      sl_skip 0 64 hD (by norm_num) (by norm_num), sl_here hR]
  have s3 : sl (padHex 64 value ++ (padHex 8 dl ++ (padHex 64 r ++
      padHex 64 vs))) 136 200 = padHex 64 vs := by
    rw [sl_skip 72 136 hV (by norm_num) (by norm_num),
      sl_skip 64 128 hD (by norm_num) (by norm_num),
      sl_skip 0 64 hR (by norm_num) (by norm_num), sl_all hVS (by norm_num)]
  simp only [decompressPermit, hlen, s0, s1, s2, s3, fromHex_padHex]
  simp

theorem decompress_146 (nonce expiry r vs token owner spender : Nat)
    (hn : nonce < 16 ^ 8) (he : expiry < 16 ^ 8) (hr : r < 16 ^ 64)
    (hvs : vs < 16 ^ 64) :
    decompressPermit
      (padHex 8 nonce ++ (padHex 8 expiry ++ (padHex 64 r ++ padHex 64 vs)))
      token owner spender =
    .ok (padHex 64 owner ++ (padHex 64 spender ++ (padHex 64 nonce ++
      (padHex 64 (if expiry = 0 then maxUint256 else expiry - 1) ++
       (padHex 64 1 ++ (padHex 64 ((vs >>> 255) + 27) ++ (padHex 64 r ++
        padHex 64 (vs &&& mask255)))))))) := by
  have hN := padHex_length hn
  have hE := padHex_length he
  have hR := padHex_length hr
  have hVS := padHex_length hvs
  have hlen : jsLength
      (padHex 8 nonce ++ (padHex 8 expiry ++ (padHex 64 r ++
        padHex 64 vs))) = 146 := by
    unfold jsLength
    simp [hN, hE, hR, hVS]
  have s0 : sl (padHex 8 nonce ++ (padHex 8 expiry ++ (padHex 64 r ++
      padHex 64 vs))) 0 8 = padHex 8 nonce := sl_here hN
  have s1 : sl (padHex 8 nonce ++ (padHex 8 expiry ++ (padHex 64 r ++
      padHex 64 vs))) 8 16 = padHex 8 expiry := by
    rw [sl_skip 0 8 hN (by norm_num) (by norm_num), sl_here hE]
  have s2 : sl (padHex 8 nonce ++ (padHex 8 expiry ++ (padHex 64 r ++
      padHex 64 vs))) 16 80 = padHex 64 r := by
    rw [sl_skip 8 72 hN (by norm_num) (by norm_num),
      sl_skip 0 64 hE (by norm_num) (by norm_num), sl_here hR]
  have s3 : sl (padHex 8 nonce ++ (padHex 8 expiry ++ (padHex 64 r ++
      padHex 64 vs))) 80 144 = padHex 64 vs := by
    rw [sl_skip 72 136 hN (by norm_num) (by norm_num),
      sl_skip 64 128 hE (by norm_num) (by norm_num),
      sl_skip 0 64 hR (by norm_num) (by norm_num), sl_all hVS (by norm_num)]
  simp only [decompressPermit, hlen, s0, s1, s2, s3, fromHex_padHex]
  simp

theorem decompress_194 (amount expiration nonce sigDeadline sig
    token owner spender : Nat)
    (ha : amount < 16 ^ 40) (he : expiration < 16 ^ 8) (hn : nonce < 16 ^ 8)
    (hsd : sigDeadline < 16 ^ 8) (hsig : sig < 16 ^ 128) :
    decompressPermit
      (padHex 40 amount ++ (padHex 8 expiration ++ (padHex 8 nonce ++
        (padHex 8 sigDeadline ++ padHex 128 sig)))) token owner spender =
    .ok (padHex 64 owner ++ (padHex 64 token ++ (padHex 64 amount ++
      (padHex 64 (if expiration = 0 then permit2Max else expiration - 1) ++
       (padHex 64 nonce ++ (padHex 64 spender ++
        (padHex 64 (if sigDeadline = 0 then permit2Max else sigDeadline - 1) ++
         (padHex 64 256 ++ (padHex 64 64 ++ padHex 128 sig))))))))) := by
  have hA := padHex_length ha
  have hE := padHex_length he
  have hN := padHex_length hn
  have hSD := padHex_length hsd
  have hS := padHex_length hsig
  have hlen : jsLength
      (padHex 40 amount ++ (padHex 8 expiration ++ (padHex 8 nonce ++
        (padHex 8 sigDeadline ++ padHex 128 sig)))) = 194 := by
    unfold jsLength
    simp [hA, hE, hN, hSD, hS]
  have s0 : sl (padHex 40 amount ++ (padHex 8 expiration ++ (padHex 8 nonce ++
      (padHex 8 sigDeadline ++ padHex 128 sig)))) 0 40 =
      padHex 40 amount := sl_here hA
  have s1 : sl (padHex 40 amount ++ (padHex 8 expiration ++ (padHex 8 nonce ++
      (padHex 8 sigDeadline ++ padHex 128 sig)))) 40 48 =
      padHex 8 expiration := by
    rw [sl_skip 0 8 hA (by norm_num) (by norm_num), sl_here hE]
  have s2 : sl (padHex 40 amount ++ (padHex 8 expiration ++ (padHex 8 nonce ++
      (padHex 8 sigDeadline ++ padHex 128 sig)))) 48 56 = padHex 8 nonce := by
    rw [sl_skip 8 16 hA (by norm_num) (by norm_num),
      sl_skip 0 8 hE (by norm_num) (by norm_num), sl_here hN]
  have s3 : sl (padHex 40 amount ++ (padHex 8 expiration ++ (padHex 8 nonce ++
      (padHex 8 sigDeadline ++ padHex 128 sig)))) 56 64 =
      padHex 8 sigDeadline := by
    rw [sl_skip 16 24 hA (by norm_num) (by norm_num),
      sl_skip 8 16 hE (by norm_num) (by norm_num),
      sl_skip 0 8 hN (by norm_num) (by norm_num), sl_here hSD]
  have s4 : sl (padHex 40 amount ++ (padHex 8 expiration ++ (padHex 8 nonce ++
      (padHex 8 sigDeadline ++ padHex 128 sig)))) 64 128 =
      (padHex 128 sig).take 64 := by
    rw [sl_skip 24 88 hA (by norm_num) (by norm_num),
      sl_skip 16 80 hE (by norm_num) (by norm_num),
      sl_skip 8 72 hN (by norm_num) (by norm_num),
      sl_skip 0 64 hSD (by norm_num) (by norm_num)]
    simp [sl]
  have s5 : sl (padHex 40 amount ++ (padHex 8 expiration ++ (padHex 8 nonce ++
      (padHex 8 sigDeadline ++ padHex 128 sig)))) 128 192 =
      (padHex 128 sig).drop 64 := by
    rw [sl_skip 88 152 hA (by norm_num) (by norm_num),
      sl_skip 80 144 hE (by norm_num) (by norm_num),
      sl_skip 72 136 hN (by norm_num) (by norm_num),
      sl_skip 64 128 hSD (by norm_num) (by norm_num)]
    unfold sl
    exact List.take_of_length_le (by simp [hS])
  simp only [decompressPermit, hlen, s0, s1, s2, s3, s4, s5, fromHex_padHex,
    List.take_append_drop]
  simp

theorem compress_dai (p : DaiPermit)
    (h1 : p.holder < 2 ^ 160) (h2 : p.spender < 2 ^ 160)
    (hn : p.nonce < 2 ^ 32) (hv : p.v = 27 ∨ p.v = 28)
    (hr : p.r < 2 ^ 256) (hs : p.s < 2 ^ 255)
    (he : p.expiry = maxUint256 ∨ p.expiry + 1 < 2 ^ 32) :
    compressPermit (encodeDai p) =
      .ok (padHex 8 p.nonce ++
        ((if p.expiry = maxUint256 then List.replicate 8 0
          else padHex 8 (p.expiry + 1)) ++
         (padHex 64 p.r ++
          padHex 64 (((p.v - 27) <<< 255) ||| p.s)))) := by
  have helt : p.expiry < 2 ^ 256 := by
    rcases he with h | h
    · rw [h]; norm_num [maxUint256]
    · have : (2 : Nat) ^ 32 ≤ 2 ^ 256 := by norm_num
      omega
  have hW0 : (padHex 64 p.holder).length = 64 :=
    padHex_length (by rw [pow16_64]; exact h1.trans (by norm_num))
  have hW1 : (padHex 64 p.spender).length = 64 :=
    padHex_length (by rw [pow16_64]; exact h2.trans (by norm_num))
  have hW2 : (padHex 64 p.nonce).length = 64 :=
    padHex_length (by rw [pow16_64]; exact hn.trans (by norm_num))
  have hW3 : (padHex 64 p.expiry).length = 64 :=
    padHex_length (by rw [pow16_64]; exact helt)
  have hW4 : (padHex 64 (if p.allowed then 1 else 0)).length = 64 :=
    padHex_length (by rw [pow16_64]; split <;> norm_num)
  have hW5 : (padHex 64 p.v).length = 64 :=
    padHex_length (by rw [pow16_64]; rcases hv with h | h <;> rw [h] <;>
      norm_num)
  have hW6 : (padHex 64 p.r).length = 64 :=
    padHex_length (by rw [pow16_64]; exact hr)
  have hW7 : (padHex 64 p.s).length = 64 :=
    padHex_length (by rw [pow16_64]; exact hs.trans (by norm_num))
  have hlen : jsLength (encodeDai p) = 514 := by
    unfold jsLength encodeDai
    simp [hW0, hW1, hW2, hW3, hW4, hW5, hW6, hW7]
  have s2 : sl (encodeDai p) 128 192 = padHex 64 p.nonce := by
    unfold encodeDai
    rw [sl_skip 64 128 hW0 (by norm_num) (by norm_num),
      sl_skip 0 64 hW1 (by norm_num) (by norm_num), sl_here hW2]
  have s3 : sl (encodeDai p) 192 256 = padHex 64 p.expiry := by
    unfold encodeDai
    rw [sl_skip 128 192 hW0 (by norm_num) (by norm_num),
      sl_skip 64 128 hW1 (by norm_num) (by norm_num),
      sl_skip 0 64 hW2 (by norm_num) (by norm_num), sl_here hW3]
  have s5 : sl (encodeDai p) 320 384 = padHex 64 p.v := by
    unfold encodeDai
    rw [sl_skip 256 320 hW0 (by norm_num) (by norm_num),
      sl_skip 192 256 hW1 (by norm_num) (by norm_num),
      sl_skip 128 192 hW2 (by norm_num) (by norm_num),
      sl_skip 64 128 hW3 (by norm_num) (by norm_num),
      sl_skip 0 64 hW4 (by norm_num) (by norm_num), sl_here hW5]
  have s6 : sl (encodeDai p) 384 448 = padHex 64 p.r := by
    unfold encodeDai
    rw [sl_skip 320 384 hW0 (by norm_num) (by norm_num),
      sl_skip 256 320 hW1 (by norm_num) (by norm_num),
      sl_skip 192 256 hW2 (by norm_num) (by norm_num),
      sl_skip 128 192 hW3 (by norm_num) (by norm_num),
      sl_skip 64 128 hW4 (by norm_num) (by norm_num),
      sl_skip 0 64 hW5 (by norm_num) (by norm_num), sl_here hW6]
  have s7 : sl (encodeDai p) 448 512 = padHex 64 p.s := by
    unfold encodeDai
    rw [sl_skip 384 448 hW0 (by norm_num) (by norm_num),
      sl_skip 320 384 hW1 (by norm_num) (by norm_num),
      sl_skip 256 320 hW2 (by norm_num) (by norm_num),
      sl_skip 192 256 hW3 (by norm_num) (by norm_num),
      sl_skip 128 192 hW4 (by norm_num) (by norm_num),
      sl_skip 64 128 hW5 (by norm_num) (by norm_num),
      sl_skip 0 64 hW6 (by norm_num) (by norm_num), sl_all hW7 (by norm_num)]
  simp only [compressPermit, hlen, s2, s3, s5, s6, s7, fromHex_padHex]
  simp

theorem compress_permit2 (p : Permit2Permit)
    (h1 : p.owner < 2 ^ 160) (h2 : p.token < 2 ^ 160)
    (h3 : p.spender < 2 ^ 160) (ham : p.amount < 2 ^ 160)
    (hn : p.nonce < 2 ^ 32)
    (he : p.expiration = permit2Max ∨ p.expiration + 1 < 2 ^ 32)
    (hsd : p.sigDeadline = permit2Max ∨ p.sigDeadline + 1 < 2 ^ 32)
    (hsig : p.signature < 16 ^ 128) :
    compressPermit (encodePermit2 p) =
      .ok (padHex 40 p.amount ++
        ((if p.expiration = permit2Max then List.replicate 8 0
          else padHex 8 (p.expiration + 1)) ++
         (padHex 8 p.nonce ++
          ((if p.sigDeadline = permit2Max then List.replicate 8 0
            else padHex 8 (p.sigDeadline + 1)) ++
           padHex 128 p.signature)))) := by
  have helt : p.expiration < 2 ^ 256 := by
    rcases he with h | h
    · rw [h]; norm_num [permit2Max]
    · have : (2 : Nat) ^ 32 ≤ 2 ^ 256 := by norm_num
      omega
  have hsdlt : p.sigDeadline < 2 ^ 256 := by
    rcases hsd with h | h
    · rw [h]; norm_num [permit2Max]
    · have : (2 : Nat) ^ 32 ≤ 2 ^ 256 := by norm_num
      omega
  have hW0 : (padHex 64 p.owner).length = 64 :=
    padHex_length (by rw [pow16_64]; exact h1.trans (by norm_num))
  have hW1 : (padHex 64 p.token).length = 64 :=
    padHex_length (by rw [pow16_64]; exact h2.trans (by norm_num))
  have hW2 : (padHex 64 p.amount).length = 64 :=
    padHex_length (by rw [pow16_64]; exact ham.trans (by norm_num))
  have hW3 : (padHex 64 p.expiration).length = 64 :=
    padHex_length (by rw [pow16_64]; exact helt)
  have hW4 : (padHex 64 p.nonce).length = 64 :=
    padHex_length (by rw [pow16_64]; exact hn.trans (by norm_num))
  have hW5 : (padHex 64 p.spender).length = 64 :=
    padHex_length (by rw [pow16_64]; exact h3.trans (by norm_num))
  have hW6 : (padHex 64 p.sigDeadline).length = 64 :=
    padHex_length (by rw [pow16_64]; exact hsdlt)
  have hW7 : (padHex 64 256).length = 64 :=
    padHex_length (by norm_num)
  have hW8 : (padHex 64 64).length = 64 :=
    padHex_length (by norm_num)
  have hW9 : (padHex 128 p.signature).length = 128 :=
    padHex_length hsig
  have hlen : jsLength (encodePermit2 p) = 706 := by
    unfold jsLength encodePermit2
    simp [hW0, hW1, hW2, hW3, hW4, hW5, hW6, hW7, hW8, hW9]
  have s2 : sl (encodePermit2 p) 128 192 = padHex 64 p.amount := by
    unfold encodePermit2
    rw [sl_skip 64 128 hW0 (by norm_num) (by norm_num),
      sl_skip 0 64 hW1 (by norm_num) (by norm_num), sl_here hW2]
  have s3 : sl (encodePermit2 p) 192 256 = padHex 64 p.expiration := by
    unfold encodePermit2
    rw [sl_skip 128 192 hW0 (by norm_num) (by norm_num),
      sl_skip 64 128 hW1 (by norm_num) (by norm_num),
      sl_skip 0 64 hW2 (by norm_num) (by norm_num), sl_here hW3]
  have s4 : sl (encodePermit2 p) 256 320 = padHex 64 p.nonce := by
    unfold encodePermit2
    rw [sl_skip 192 256 hW0 (by norm_num) (by norm_num),
      sl_skip 128 192 hW1 (by norm_num) (by norm_num),
      sl_skip 64 128 hW2 (by norm_num) (by norm_num),
      sl_skip 0 64 hW3 (by norm_num) (by norm_num), sl_here hW4]
  have s6 : sl (encodePermit2 p) 384 448 = padHex 64 p.sigDeadline := by
    unfold encodePermit2
    rw [sl_skip 320 384 hW0 (by norm_num) (by norm_num),
      sl_skip 256 320 hW1 (by norm_num) (by norm_num),
      sl_skip 192 256 hW2 (by norm_num) (by norm_num),
      sl_skip 128 192 hW3 (by norm_num) (by norm_num),
      sl_skip 64 128 hW4 (by norm_num) (by norm_num),
      sl_skip 0 64 hW5 (by norm_num) (by norm_num), sl_here hW6]
  have s9 : sl (encodePermit2 p) 576 704 = padHex 128 p.signature := by
    unfold encodePermit2
    rw [sl_skip 512 640 hW0 (by norm_num) (by norm_num),
      sl_skip 448 576 hW1 (by norm_num) (by norm_num),
      sl_skip 384 512 hW2 (by norm_num) (by norm_num),
      sl_skip 320 448 hW3 (by norm_num) (by norm_num),
      sl_skip 256 384 hW4 (by norm_num) (by norm_num),
      sl_skip 192 320 hW5 (by norm_num) (by norm_num),
      sl_skip 128 256 hW6 (by norm_num) (by norm_num),
      sl_skip 64 192 hW7 (by norm_num) (by norm_num),
      sl_skip 0 128 hW8 (by norm_num) (by norm_num),
      sl_all hW9 (by norm_num)]
  simp only [compressPermit, hlen, s2, s3, s4, s6, s9, fromHex_padHex]
  simp

theorem roundtrip_eip2612 (p : Eip2612Permit) (token owner spender : Nat)
    (h1 : p.owner < 2 ^ 160) (h2 : p.spender < 2 ^ 160)
    (h3 : p.value < 2 ^ 256) (hv : p.v = 27 ∨ p.v = 28)
    (hr : p.r < 2 ^ 256) (hs : p.s < 2 ^ 255)
    (hd : p.deadline = maxUint256 ∨ p.deadline + 1 < 2 ^ 32) :
    (compressPermit (encodeEip2612 p)).bind
      (fun c => decompressPermit c token owner spender) =
    .ok (encodeEip2612
      { p with owner := owner, spender := spender }) := by
  rw [compress_eip2612 p h1 h2 h3 hv hr hs hd]
  show decompressPermit _ token owner spender = _
  have hDrw : (if p.deadline = maxUint256 then List.replicate 8 0
      else padHex 8 (p.deadline + 1)) =
      padHex 8 (if p.deadline = maxUint256 then 0 else p.deadline + 1) := by
    split <;> simp [padHex]
  rw [hDrw]
  rw [decompress_202 p.value (if p.deadline = maxUint256 then 0
      else p.deadline + 1) p.r (((p.v - 27) <<< 255) ||| p.s)
      token owner spender
    (by rw [pow16_64]; exact h3)
    (by rw [pow16_8]; rcases hd with h | h
        · rw [if_pos h]; norm_num
        · split <;> [norm_num; exact h])
    (by rw [pow16_64]; exact hr)
    (by rw [pow16_64]; exact vs_lt hv hs)]
  have hdl : (if (if p.deadline = maxUint256 then 0 else p.deadline + 1) = 0
      then maxUint256
      else (if p.deadline = maxUint256 then 0 else p.deadline + 1) - 1) =
      p.deadline := by
    rcases hd with h | h
    · rw [if_pos h, if_pos rfl, h]
    · have hne : p.deadline ≠ maxUint256 := by
        intro heq
        rw [heq] at h
        norm_num [maxUint256] at h
      rw [if_neg hne, if_neg (Nat.succ_ne_zero _), Nat.add_sub_cancel]
  rw [hdl, vs_eq hs, vs_recover_v hv hs, vs_recover_s hs]
  unfold encodeEip2612
  rfl

theorem roundtrip_dai (p : DaiPermit) (token owner spender : Nat)
    (h1 : p.holder < 2 ^ 160) (h2 : p.spender < 2 ^ 160)
    (hn : p.nonce < 2 ^ 32) (hv : p.v = 27 ∨ p.v = 28)
    (hr : p.r < 2 ^ 256) (hs : p.s < 2 ^ 255)
    (he : p.expiry = maxUint256 ∨ p.expiry + 1 < 2 ^ 32) :
    (compressPermit (encodeDai p)).bind
      (fun c => decompressPermit c token owner spender) =
    .ok (encodeDai
      { p with holder := owner, spender := spender, allowed := true }) := by
  rw [compress_dai p h1 h2 hn hv hr hs he]
  show decompressPermit _ token owner spender = _
  have hErw : (if p.expiry = maxUint256 then List.replicate 8 0
      else padHex 8 (p.expiry + 1)) =
      padHex 8 (if p.expiry = maxUint256 then 0 else p.expiry + 1) := by
    split <;> simp [padHex]
  rw [hErw]
  rw [decompress_146 p.nonce (if p.expiry = maxUint256 then 0
      else p.expiry + 1) p.r (((p.v - 27) <<< 255) ||| p.s)
      token owner spender
    (by rw [pow16_8]; exact hn)
    (by rw [pow16_8]; rcases he with h | h
        · rw [if_pos h]; norm_num
        · split <;> [norm_num; exact h])
    (by rw [pow16_64]; exact hr)
    (by rw [pow16_64]; exact vs_lt hv hs)]
  have hex : (if (if p.expiry = maxUint256 then 0 else p.expiry + 1) = 0
      then maxUint256
      else (if p.expiry = maxUint256 then 0 else p.expiry + 1) - 1) =
      p.expiry := by
    rcases he with h | h
    · rw [if_pos h, if_pos rfl, h]
    · have hne : p.expiry ≠ maxUint256 := by
        intro heq
        rw [heq] at h
        norm_num [maxUint256] at h
      rw [if_neg hne, if_neg (Nat.succ_ne_zero _), Nat.add_sub_cancel]
  rw [hex, vs_eq hs, vs_recover_v hv hs, vs_recover_s hs]
  unfold encodeDai
  rfl

theorem roundtrip_permit2 (p : Permit2Permit) (token owner spender : Nat)
    (h1 : p.owner < 2 ^ 160) (h2 : p.token < 2 ^ 160)
    (h3 : p.spender < 2 ^ 160) (ham : p.amount < 2 ^ 160)
    (hn : p.nonce < 2 ^ 32)
    (he : p.expiration = permit2Max ∨ p.expiration + 1 < 2 ^ 32)
    (hsd : p.sigDeadline = permit2Max ∨ p.sigDeadline + 1 < 2 ^ 32)
    (hsig : p.signature < 16 ^ 128) :
    (compressPermit (encodePermit2 p)).bind
      (fun c => decompressPermit c token owner spender) =
    .ok (encodePermit2
      { p with owner := owner, token := token, spender := spender }) := by
  rw [compress_permit2 p h1 h2 h3 ham hn he hsd hsig]
  show decompressPermit _ token owner spender = _
  have hErw : (if p.expiration = permit2Max then List.replicate 8 0
      else padHex 8 (p.expiration + 1)) =
      padHex 8 (if p.expiration = permit2Max then 0
        else p.expiration + 1) := by
    split <;> simp [padHex]
  have hSDrw : (if p.sigDeadline = permit2Max then List.replicate 8 0
      else padHex 8 (p.sigDeadline + 1)) =
      padHex 8 (if p.sigDeadline = permit2Max then 0
        else p.sigDeadline + 1) := by
    split <;> simp [padHex]
  rw [hErw, hSDrw]
  rw [decompress_194 p.amount
    (if p.expiration = permit2Max then 0 else p.expiration + 1) p.nonce
    (if p.sigDeadline = permit2Max then 0 else p.sigDeadline + 1)
    p.signature token owner spender
    (by rw [pow16_40]; exact ham)
    (by rw [pow16_8]; rcases he with h | h
        · rw [if_pos h]; norm_num
        · split <;> [norm_num; exact h])
    (by rw [pow16_8]; exact hn)
    (by rw [pow16_8]; rcases hsd with h | h
        · rw [if_pos h]; norm_num
        · split <;> [norm_num; exact h])
    hsig]
  have hex : (if (if p.expiration = permit2Max then 0
      else p.expiration + 1) = 0 then permit2Max
      else (if p.expiration = permit2Max then 0
        else p.expiration + 1) - 1) = p.expiration := by
    rcases he with h | h
    · rw [if_pos h, if_pos rfl, h]
    · have hne : p.expiration ≠ permit2Max := by
        intro heq
        rw [heq] at h
        norm_num [permit2Max] at h
      rw [if_neg hne, if_neg (Nat.succ_ne_zero _), Nat.add_sub_cancel]
  have hsx : (if (if p.sigDeadline = permit2Max then 0
      else p.sigDeadline + 1) = 0 then permit2Max
      else (if p.sigDeadline = permit2Max then 0
        else p.sigDeadline + 1) - 1) = p.sigDeadline := by
    rcases hsd with h | h
    · rw [if_pos h, if_pos rfl, h]
    · have hne : p.sigDeadline ≠ permit2Max := by
        intro heq
        rw [heq] at h
        norm_num [permit2Max] at h
      rw [if_neg hne, if_neg (Nat.succ_ne_zero _), Nat.add_sub_cancel]
  rw [hex, hsx]
  unfold encodePermit2
  rfl

/-- C1: for every valid uncompressed permit payload of one of the three
variants (EIP-2612 length 450, DAI-style length 514, Permit2 length 706)
whose numeric fields fit the compressed widths, and for every token,
owner, spender address, decompressPermit after compressPermit
reconstructs the payload field for field: every surviving field
(value / nonce / deadline / expiry / amount, r, s, v, signature) is
recovered exactly, and the elided owner / spender (and token for
Permit2) take the re-supplied argument values. -/
theorem C1_permit_roundtrip (pp : PermitPayload) (token owner spender : Nat)
    (hv : validPayload pp) :
    (compressPermit (encodePayload pp)).bind
      (fun c => decompressPermit c token owner spender) =
    .ok (encodePayload (resupply pp token owner spender)) := by
  cases pp with
  | eip2612 p =>
    obtain ⟨h1, h2, h3, hv27, hr, hs, hd⟩ := hv
    exact roundtrip_eip2612 p token owner spender h1 h2 h3 hv27 hr hs hd
  | dai p =>
    obtain ⟨h1, h2, hn, hv27, hr, hs, he, hall⟩ := hv
    have := roundtrip_dai p token owner spender h1 h2 hn hv27 hr hs he
    simpa [encodePayload, resupply] using this
  | permit2 p =>
    obtain ⟨h1, h2, h3, ham, hn, he, hsd, hsig⟩ := hv
    exact roundtrip_permit2 p token owner spender h1 h2 h3 ham hn he hsd hsig

/-- Witness for C1 at a concrete EIP-2612 payload. -/
theorem C1_permit_roundtrip_witness :
    (compressPermit (encodePayload
      (.eip2612 ⟨1, 2, 3, 4, 27, 5, 6⟩))).bind
      (fun c => decompressPermit c 7 8 9) =
    .ok (encodePayload
      (resupply (.eip2612 ⟨1, 2, 3, 4, 27, 5, 6⟩) 7 8 9)) :=
  C1_permit_roundtrip (.eip2612 ⟨1, 2, 3, 4, 27, 5, 6⟩) 7 8 9
    (by unfold validPayload; decide)

/-- C5: compressPermit fails with the invalid-length error for every
input whose (prefixed) length is outside the six-element set, with the
already-compressed error for lengths 202, 146, 194; decompressPermit
fails with the already-decompressed error for lengths 450, 514, 706 and
with the invalid-length error outside the set.  The embedding is a pure
function of the input, so no state is mutated and the error cases
depend on the length alone. -/
theorem C5_length_dispatch (q : List Nat) (token owner spender : Nat) :
    (jsLength q ∉ ([450, 514, 706, 202, 146, 194] : List Nat) →
      compressPermit q = .error "Invalid permit length") ∧
    (jsLength q = 202 ∨ jsLength q = 146 ∨ jsLength q = 194 →
      compressPermit q = .error "Permit is already compressed") ∧
    (jsLength q = 450 ∨ jsLength q = 514 ∨ jsLength q = 706 →
      decompressPermit q token owner spender =
        .error "Permit is already decompressed") ∧
    (jsLength q ∉ ([450, 514, 706, 202, 146, 194] : List Nat) →
      decompressPermit q token owner spender =
        .error "Invalid permit length") := by
  refine ⟨?_, ?_, ?_, ?_⟩
  · intro h
    simp only [List.mem_cons, List.not_mem_nil, or_false, not_or] at h
    obtain ⟨n1, n2, n3, n4, n5, n6⟩ := h
    unfold compressPermit
    rw [if_neg n1, if_neg n2, if_neg n3, if_neg (by simp [n4, n5, n6])]
  · intro h
    have n1 : jsLength q ≠ 450 := by omega
    have n2 : jsLength q ≠ 514 := by omega
    have n3 : jsLength q ≠ 706 := by omega
    unfold compressPermit
    rw [if_neg n1, if_neg n2, if_neg n3, if_pos h]
  · intro h
    have n1 : jsLength q ≠ 202 := by omega
    have n2 : jsLength q ≠ 146 := by omega
    have n3 : jsLength q ≠ 194 := by omega
    unfold decompressPermit
    rw [if_neg n1, if_neg n2, if_neg n3, if_pos h]
  · intro h
    simp only [List.mem_cons, List.not_mem_nil, or_false, not_or] at h
    obtain ⟨n1, n2, n3, n4, n5, n6⟩ := h
    unfold decompressPermit
    rw [if_neg n4, if_neg n5, if_neg n6, if_neg (by simp [n1, n2, n3])]

/-- Witness for C5 at concrete lengths 102 (invalid), 202 (compressed),
450 (uncompressed). -/
theorem C5_length_dispatch_witness :
    compressPermit (List.replicate 100 0) = .error "Invalid permit length" ∧
    compressPermit (List.replicate 200 0) =
      .error "Permit is already compressed" ∧
    decompressPermit (List.replicate 448 0) 0 0 0 =
      .error "Permit is already decompressed" ∧
    decompressPermit (List.replicate 100 0) 0 0 0 =
      .error "Invalid permit length" :=
  ⟨(C5_length_dispatch (List.replicate 100 0) 0 0 0).1 (by decide),
   (C5_length_dispatch (List.replicate 200 0) 0 0 0).2.1 (by decide),
   (C5_length_dispatch (List.replicate 448 0) 0 0 0).2.2.1 (by decide),
   (C5_length_dispatch (List.replicate 100 0) 0 0 0).2.2.2 (by decide)⟩

/-- C6: for every EIP-2612 payload, compressPermit produces exactly
value(32B) then deadline-prime(4B) then r(32B) then vs(32B), with
deadline-prime 0 at the MaxUint256 sentinel and deadline + 1 otherwise
and vs = ((v - 27) <<< 255) ||| s; and decompressPermit on the
202-length form recovers v as (vs >>> 255) + 27, s as vs masked with
2 ^ 255 - 1, and maps deadline-prime 0 back to MaxUint256 and positive
deadline-prime back to deadline-prime - 1. -/
theorem C6_eip2612_codec :
    (∀ p : Eip2612Permit, p.owner < 2 ^ 160 → p.spender < 2 ^ 160 →
      p.value < 2 ^ 256 → (p.v = 27 ∨ p.v = 28) → p.r < 2 ^ 256 →
      p.s < 2 ^ 255 →
      (p.deadline = maxUint256 ∨ p.deadline + 1 < 2 ^ 32) →
      compressPermit (encodeEip2612 p) =
        .ok (padHex 64 p.value ++
          ((if p.deadline = maxUint256 then List.replicate 8 0
            else padHex 8 (p.deadline + 1)) ++
           (padHex 64 p.r ++
            padHex 64 (((p.v - 27) <<< 255) ||| p.s))))) ∧
    (∀ value dl r vs token owner spender : Nat, value < 16 ^ 64 →
      dl < 16 ^ 8 → r < 16 ^ 64 → vs < 16 ^ 64 →
      decompressPermit (padHex 64 value ++ (padHex 8 dl ++ (padHex 64 r ++
        padHex 64 vs))) token owner spender =
      .ok (encodeEip2612 ⟨owner, spender, value,
        if dl = 0 then maxUint256 else dl - 1, (vs >>> 255) + 27, r,
        vs &&& (2 ^ 255 - 1)⟩)) := by
  constructor
  · intro p h1 h2 h3 hv hr hs hd
    exact compress_eip2612 p h1 h2 h3 hv hr hs hd
  · intro value dl r vs token owner spender hval hdl hr hvs
    rw [decompress_202 value dl r vs token owner spender hval hdl hr hvs,
      mask255_eq]
    unfold encodeEip2612
    rfl

/-- Witness for C6 at concrete payloads. -/
theorem C6_eip2612_codec_witness :
    compressPermit (encodeEip2612 ⟨1, 2, 3, 4, 28, 5, 6⟩) =
      .ok (padHex 64 3 ++
        ((if (4 : Nat) = maxUint256 then List.replicate 8 0
          else padHex 8 (4 + 1)) ++
         (padHex 64 5 ++ padHex 64 (((28 - 27) <<< 255) ||| 6)))) ∧
    decompressPermit (padHex 64 3 ++ (padHex 8 5 ++ (padHex 64 7 ++
      padHex 64 9))) 1 2 4 =
      .ok (encodeEip2612 ⟨2, 4, 3, if (5 : Nat) = 0 then maxUint256
        else 5 - 1, ((9 : Nat) >>> 255) + 27, 7, 9 &&& (2 ^ 255 - 1)⟩) :=
  ⟨C6_eip2612_codec.1 ⟨1, 2, 3, 4, 28, 5, 6⟩ (by norm_num) (by norm_num)
      (by norm_num) (Or.inr rfl) (by norm_num) (by norm_num)
      (Or.inr (by norm_num)),
   C6_eip2612_codec.2 3 5 7 9 1 2 4 (by norm_num) (by norm_num)
      (by norm_num) (by norm_num)⟩

/-- C10: for compressed inputs that are not of the Permit2 length 194
(in particular the EIP-2612 length 202 and DAI length 146 forms), the
output of decompressPermit does not depend on the token argument. -/
theorem C10_token_independence (q : List Nat) (t1 t2 owner spender : Nat)
    (h : jsLength q ≠ 194) :
    decompressPermit q t1 owner spender =
      decompressPermit q t2 owner spender := by
  unfold decompressPermit
  by_cases h202 : jsLength q = 202
  · simp [h202]
  · by_cases h146 : jsLength q = 146
    · simp [h202, h146]
    · simp [h202, h146, h]

/-- Witness for C10 at a concrete 202-length input and two tokens. -/
theorem C10_token_independence_witness :
    decompressPermit (List.replicate 200 3) 5 7 8 =
      decompressPermit (List.replicate 200 3) 6 7 8 :=
  C10_token_independence (List.replicate 200 3) 5 6 7 8 (by decide)

/-- C7: calculateSubscriptionRate is floor division of the cost by the
cycle length in seconds, with daily 86400, weekly 604800, monthly
2592000 (fixed 30-day month), yearly 31536000 (fixed 365-day year); in
particular the monthly rate of a 2592000-token 18-decimal cost is one
token-unit per second. -/
theorem C7_rate_calculation :
    (∀ cost : Nat,
      (calculateSubscriptionRate cost .daily * 86400 ≤ cost ∧
        cost < (calculateSubscriptionRate cost .daily + 1) * 86400) ∧
      (calculateSubscriptionRate cost .weekly * 604800 ≤ cost ∧
        cost < (calculateSubscriptionRate cost .weekly + 1) * 604800) ∧
      (calculateSubscriptionRate cost .monthly * 2592000 ≤ cost ∧
        cost < (calculateSubscriptionRate cost .monthly + 1) * 2592000) ∧
      (calculateSubscriptionRate cost .yearly * 31536000 ≤ cost ∧
        cost < (calculateSubscriptionRate cost .yearly + 1) * 31536000)) ∧
    calculateSubscriptionRate 2592000000000000000 .monthly =
      1000000000000 := by
  constructor
  · intro cost
    simp only [calculateSubscriptionRate, timeDurations]
    omega
  · decide

/-- C9 (amended): buildBySigTraits packs its arguments as a 2-bit nonce
type shifted left by 254, a 40-bit deadline shifted left by 208, an
80-bit relayer-address fragment shifted left by 128 (the code masks the
relayer with the 20-hex-digit mask 0xffffffffffffffffffff), and a
128-bit nonce in the low bits; and the sponsored-call path of
Subscribe.submit invokes it with nonce type Selector, deadline
0xffffffffff, and nonce 0. -/
theorem C9_traits_packing :
    (∀ nonceType deadline relayer nonce : Nat, nonceType ≤ 3 →
      deadline ≤ 0xffffffffff → relayer < 2 ^ 160 →
      nonce ≤ 0xffffffffffffffffffffffffffffffff →
      buildBySigTraits nonceType deadline relayer nonce =
        .ok (nonceType * 2 ^ 254 + deadline * 2 ^ 208 +
          relayer % 2 ^ 80 * 2 ^ 128 + nonce)) ∧
    subscribeTraits =
      .ok (1 * 2 ^ 254 + 0xffffffffff * 2 ^ 208 + 0 * 2 ^ 128 + 0) := by
  constructor
  · intro nt dl rel n h1 h2 h3 h4
    unfold buildBySigTraits
    rw [if_neg (Nat.not_lt.mpr h1), if_neg (Nat.not_lt.mpr h2),
      if_neg (Nat.not_le.mpr h3), if_neg (Nat.not_lt.mpr h4),
      Nat.shiftLeft_eq, Nat.shiftLeft_eq, Nat.shiftLeft_eq,
      show (0xffffffffffffffffffff : Nat) = 2 ^ 80 - 1 by norm_num,
      Nat.and_pow_two_sub_one_eq_mod]
    simp only [Nat.add_assoc]
  · unfold subscribeTraits buildBySigTraits NonceType.toNat
    rw [if_neg (by norm_num), if_neg (by norm_num), if_neg (by norm_num),
      if_neg (by norm_num), Nat.shiftLeft_eq, Nat.shiftLeft_eq,
      Nat.shiftLeft_eq]
    simp only [Nat.zero_and, Nat.zero_mul, Nat.add_zero, Nat.zero_add,
      Nat.one_mul]

/-- Witness for C9 at concrete arguments. -/
theorem C9_traits_packing_witness :
    buildBySigTraits 2 5 7 11 =
      .ok (2 * 2 ^ 254 + 5 * 2 ^ 208 + 7 % 2 ^ 80 * 2 ^ 128 + 11) :=
  C9_traits_packing.1 2 5 7 11 (by norm_num) (by norm_num) (by norm_num)
    (by norm_num)

/-- Counterexample to C9 as stated: with relayer 2 ^ 80 (bit 80 set) the
code's 80-bit mask zeroes the relayer fragment, while the claimed
88-bit fragment would contribute 2 ^ 208 to the packed value. -/
theorem C9_traits_counterexample :
    buildBySigTraits 0 0 (2 ^ 80) 0 = .ok 0 ∧
    specTraits88 0 0 (2 ^ 80) 0 = 2 ^ 208 ∧ (2 ^ 208 : Nat) ≠ 0 := by
  refine ⟨?_, by norm_num [specTraits88], by norm_num⟩
  unfold buildBySigTraits
  rw [if_neg (by norm_num), if_neg (by norm_num), if_neg (by norm_num),
    if_neg (by norm_num), Nat.shiftLeft_eq, Nat.shiftLeft_eq,
    Nat.shiftLeft_eq,
    show (0xffffffffffffffffffff : Nat) = 2 ^ 80 - 1 by norm_num,
    Nat.and_pow_two_sub_one_eq_mod]
  rw [Nat.mod_self]

/-- C2 (amended): needsDeposit is true exactly when the Papaya deposit
balance is not yet loaded or is below the bare 18-decimal subscription
cost parseUnits(cost, 18); no safety-buffer term enters the
comparison. -/
theorem C2_needs_deposit (i : SubscriptionInput) :
    needsDeposit i = true ↔
      i.papayaBalance = none ∨
        ∃ pb, i.papayaBalance = some pb ∧ pb < i.cost18 := by
  unfold needsDeposit
  cases h : i.papayaBalance with
  | none => simp [h]
  | some pb => simp [h]

/-- Counterexample to C2 as stated: a deposit balance equal to the bare
cost (2.592 tokens monthly, so the claimed rate is positive) is below
the claimed requiredDeposit18 = cost18 + rate * 172800, yet the code
reports needsDeposit = false. -/
theorem C2_needs_deposit_counterexample :
    needsDeposit
      ⟨some (2592 * 10 ^ 15), none, none, 2592000, 2592 * 10 ^ 15⟩ =
      false ∧
    2592 * 10 ^ 15 <
      specRequiredDeposit18 (2592 * 10 ^ 15) SubscriptionPayCycle.monthly := by
  constructor
  · decide
  · decide

/-- C3 (amended): in the first hook version canSubscribe holds exactly
when either no deposit is needed and the loaded Papaya balance covers
parseUnits(cost, 18), or a deposit is needed and the loaded wallet
balance covers the full parseUnits(cost, 6) (the full cost, not the
shortfall); in the second version the deposit-financed branch is absent
altogether. -/
theorem C3_can_subscribe (i : SubscriptionInput) :
    (canSubscribeV1 i = true ↔
      ((needsDeposit i = false ∧
        ∃ pb, i.papayaBalance = some pb ∧ i.cost18 ≤ pb) ∨
       (needsDeposit i = true ∧
        ∃ tb, i.tokenBalance = some tb ∧ i.cost6 ≤ tb))) ∧
    (canSubscribeV2 i = true ↔
      (needsDeposit i = false ∧
        ∃ pb, i.papayaBalance = some pb ∧ i.cost18 ≤ pb)) := by
  unfold canSubscribeV1 canSubscribeV2
  cases hnd : needsDeposit i <;>
    cases hpb : i.papayaBalance <;>
    cases htb : i.tokenBalance <;>
    simp [hnd, hpb, htb]

/-- Counterexample to C3 as stated: deposit needed, wallet balance
600000 token units covers the claimed shortfall (about 566666 units,
safety buffer included) but not the full cost of 1000000 units, so the
claim predicts canSubscribe = true while both versions of the code
report false. -/
theorem C3_can_subscribe_counterexample :
    needsDeposit
      ⟨some (5 * 10 ^ 17), some (10 ^ 6), some 600000, 10 ^ 6, 10 ^ 18⟩ =
      true ∧
    specShortfallTok (10 ^ 18) (5 * 10 ^ 17) SubscriptionPayCycle.monthly ≤
      600000 ∧
    canSubscribeV1
      ⟨some (5 * 10 ^ 17), some (10 ^ 6), some 600000, 10 ^ 6, 10 ^ 18⟩ =
      false ∧
    canSubscribeV2
      ⟨some (5 * 10 ^ 17), some (10 ^ 6), some 600000, 10 ^ 6, 10 ^ 18⟩ =
      false := by
  refine ⟨by decide, by decide, by decide, by decide⟩

/-- C4 (amended): depositAmount is the plain bigint difference
parseUnits(cost, 6) - floor(papayaBalance / 10 ^ 12) when the balance
is loaded and positive (the full parseUnits(cost, 6) otherwise); there
is no max(0, _) clamp, so the value is negative exactly when the scaled
balance exceeds the cost in token units. -/
theorem C4_shortfall (i : SubscriptionInput) :
    (∀ pb, i.papayaBalance = some pb → 0 < pb →
      depositAmount i = (i.cost6 : Int) - ((pb / 10 ^ 12 : Nat) : Int) ∧
      (depositAmount i < 0 ↔ i.cost6 < pb / 10 ^ 12)) ∧
    (i.papayaBalance = none → depositAmount i = (i.cost6 : Int)) ∧
    (i.papayaBalance = some 0 → depositAmount i = (i.cost6 : Int)) := by
  unfold depositAmount
  refine ⟨?_, ?_, ?_⟩
  · intro pb hpb hpos
    simp only [hpb]
    rw [if_pos hpos]
    exact ⟨rfl, by omega⟩
  · intro h
    rw [h]
  · intro h
    rw [h]
    norm_num

/-- Witness for C4 at a concrete loaded positive balance. -/
theorem C4_shortfall_witness :
    depositAmount ⟨some (3 * 10 ^ 12), none, none, 5, 5 * 10 ^ 12⟩ =
      (5 : Int) - ((3 * 10 ^ 12 / 10 ^ 12 : Nat) : Int) ∧
    (depositAmount ⟨some (3 * 10 ^ 12), none, none, 5, 5 * 10 ^ 12⟩ < 0 ↔
      5 < 3 * 10 ^ 12 / 10 ^ 12) :=
  (C4_shortfall ⟨some (3 * 10 ^ 12), none, none, 5, 5 * 10 ^ 12⟩).1
    (3 * 10 ^ 12) rfl (by norm_num)

/-- Counterexample to C4 as stated: with a 2-token deposit balance and a
1-token cost the code's depositAmount is the negative value -1000000,
while the claimed max(0, _) shortfall is 0. -/
theorem C4_shortfall_counterexample :
    depositAmount ⟨some (2 * 10 ^ 18), none, none, 10 ^ 6, 10 ^ 18⟩ =
      -(10 ^ 6) ∧
    depositAmount ⟨some (2 * 10 ^ 18), none, none, 10 ^ 6, 10 ^ 18⟩ < 0 ∧
    specShortfallTok (10 ^ 18) (2 * 10 ^ 18) SubscriptionPayCycle.monthly =
      0 := by
  refine ⟨by decide, by decide, by decide⟩

/-- C8: useTokenDetails never reports an unsupported network or token.
At the failing inputs (chain id 999, token symbol DOGE on Polygon) the
?? fallbacks substitute the default Polygon network and default USDT
token before the flags are computed, so isUnsupportedNetwork and
isUnsupportedToken are false, contradicting the claim and the code's
own intent comments. -/
theorem C8_unsupported_flags_bug :
    (useTokenDetails 999 "USDT").map
      (fun r => (r.isUnsupportedNetwork, r.currentNetwork.chainId)) =
      .ok (false, 137) ∧
    (useTokenDetails 137 "DOGE").map
      (fun r => (r.isUnsupportedToken, r.tokenDetails.name)) =
      .ok (false, "USDT") :=
  ⟨rfl, rfl⟩

end PapayaWidget
